import Mathlib

/-!
# Verification of the counterparty CRUD front end

A shallow embedding, in Lean 4, of the logical core of the `homework-html`
repository: the field validators and form validation
(`src/app/components/counterparty/modal/ModalFormValidator.ts` and the
earlier validator revision), the two state reducers
(`src/app/context/ConterpatyStore.ts` and the reducer defined inside
`src/app/context/CounterpartyContext.tsx`), the domain service
(`src/services/CounterpartyService.ts` over `src/services/ApiService.ts`),
and the polling-timer lifecycle (`utils` timer helpers, the provider effect
in `CounterpartyContext.tsx`, and `ServerStatusBadge.tsx`).

JavaScript values of type `string | undefined` are modelled as
`Option String` (with `none` for `undefined`); a property slot of a JS
object is modelled as `JsField`, which distinguishes a key that is absent
from a key that is present with the value `undefined` (the distinction
matters for `Object.entries`).
-/

namespace Homework

/-! ## Data model (src/app/types/index.ts) -/

/-- A counterparty entity: `id` plus the four form fields. -/
structure Counterparty where
  id : String
  name : String
  inn : String
  address : String
  kpp : String
deriving DecidableEq, Repr

/-- A slot of a JS object: the key can be absent, present with value
`undefined`, or present with a string value. -/
inductive JsField where
  | absent
  | undef
  | str (s : String)
deriving DecidableEq, Repr

/-- Reading the slot as a property access (`obj.key`): an absent key and a
key holding `undefined` both read as `undefined`. -/
def JsField.val : JsField → Option String
  | .absent => none
  | .undef => none
  | .str s => some s

/-- Whether the key is an own enumerable property, i.e. whether
`Object.entries` lists it. -/
def JsField.present : JsField → Bool
  | .absent => false
  | .undef => true
  | .str _ => true

/-- A `CounterpartyFormData` object at runtime: each of the five keys may be
absent, `undefined`, or a string. -/
structure FormRecord where
  id : JsField
  name : JsField
  inn : JsField
  address : JsField
  kpp : JsField
deriving DecidableEq, Repr

/-- A `CounterpartyFormErrors` mapping: per field, `none` means the key is
absent from the mapping and `some m` means the field maps to message `m`. -/
structure FormErrors where
  name : Option String
  inn : Option String
  address : Option String
  kpp : Option String
deriving DecidableEq, Repr

/-- The empty error mapping `{}`. -/
def FormErrors.empty : FormErrors := ⟨none, none, none, none⟩

/-- Whether the error mapping has no keys. -/
def FormErrors.isEmpty (e : FormErrors) : Bool :=
  e.name.isNone && e.inn.isNone && e.address.isNone && e.kpp.isNone

/-! ## Validators (ModalFormValidator.ts and unnamed/part_005; the two
revisions define the four field validators identically) -/

/-- Semantics of the JS regular expression test
for a regular expression consisting of the start anchor, a class of decimal
digits repeated exactly `n` times, and the end anchor: the string consists
of exactly `n` decimal digits. -/
def matchesDigits (n : Nat) (s : String) : Bool :=
  s.length == n && s.data.all Char.isDigit

/-- The `validateInn`: `if (!inn) return false; return` the 11-digit regex test.
JS truthiness makes both `undefined` and the empty string falsy. -/
def validateInn : Option String → Bool
  | none => false
  | some s => if s == "" then false else matchesDigits 11 s

/-- The `validateKpp`: `if (!kpp) return false; return` the 9-digit regex test. -/
def validateKpp : Option String → Bool
  | none => false
  | some s => if s == "" then false else matchesDigits 9 s

/-- The `validateAddress`: `if (!address) return false; return address.length > 0`. -/
def validateAddress : Option String → Bool
  | none => false
  | some s => if s == "" then false else decide (s.length > 0)

/-- The `validateName`: `if (!name) return false; return name.length > 0`. -/
def validateName : Option String → Bool
  | none => false
  | some s => if s == "" then false else decide (s.length > 0)

/-- Fixed message for a failing name. -/
def nameErrorMsg : String := "Название не может быть пустым"

/-- Fixed message for a failing INN. -/
def innErrorMsg : String := "ИНН должен содержать 11 цифр"

/-- Fixed message for a failing KPP. -/
def kppErrorMsg : String := "КПП должен содержать 9 цифр"

/-- Fixed message for a failing address. -/
def addressErrorMsg : String := "Адрес не может быть пустым"

/-- One step of the `Object.entries` loop of `validate`
(ModalFormValidator.ts): an absent key is not enumerated at all; a present
key (even one holding `undefined`) is passed to its field validator and, on
failure, mapped to the fixed message. -/
def entryError (handler : Option String → Bool) (msg : String) (f : JsField) :
    Option String :=
  match f with
  | .absent => none
  | f => if handler f.val then none else some msg

/-- The `validate(values)` from ModalFormValidator.ts: iterate over
`Object.entries(values)` and collect the fixed message for every enumerated
field whose validator rejects its value. The `id` entry has the constant-true
handler and never produces an error. -/
def validate (values : FormRecord) : FormErrors :=
  { name := entryError validateName nameErrorMsg values.name
    inn := entryError validateInn innErrorMsg values.inn
    address := entryError validateAddress addressErrorMsg values.address
    kpp := entryError validateKpp kppErrorMsg values.kpp }

/-- The `isValidConteParty(counterparty)` from unnamed/part_005: the conjunction
of the four field validators applied to the property reads. -/
def isValidConteParty (c : FormRecord) : Bool :=
  validateInn c.inn.val && validateKpp c.kpp.val &&
    validateAddress c.address.val && validateName c.name.val

/-- The `validateForm(counterparty, setErrors)` from unnamed/part_005, returning
the error object that is passed to `setErrors`: each of the four fields is
checked unconditionally via its property read. -/
def validateForm (c : FormRecord) : FormErrors :=
  { name := if validateName c.name.val then none else some nameErrorMsg
    inn := if validateInn c.inn.val then none else some innErrorMsg
    address := if validateAddress c.address.val then none else some addressErrorMsg
    kpp := if validateKpp c.kpp.val then none else some kppErrorMsg }

/-! ## Store state and actions (identical in ConterpatyStore.ts and
CounterpartyContext.tsx) -/

/-- The `CounterpartyContextState`. -/
structure StoreState where
  counterparties : List Counterparty
  isModalOpen : Bool
  isLoading : Bool
  loadedSuccess : Bool
  editingCounterparty : Option Counterparty
deriving DecidableEq, Repr

/-- The `Action` union: an `ActionType` tag together with its payload. -/
inductive Action where
  | loadStart
  | loadSuccess (payload : List Counterparty)
  | loadError
  | openAddModal
  | openEditModal (payload : Counterparty)
  | closeModal
  | deleteCounterparty (payload : String)
  | updateCounterparty (payload : Counterparty)
  | createCounterparty (payload : Counterparty)
deriving DecidableEq, Repr

namespace Store

/-- The `counterpartyInitialState` from ConterpatyStore.ts. -/
def counterpartyInitialState : StoreState :=
  { counterparties := []
    isModalOpen := false
    isLoading := true
    loadedSuccess := true
    editingCounterparty := none }

/-- The `replaceCounterparty` from ConterpatyStore.ts: map over the array,
substituting the new record for every element with the same id. -/
def replaceCounterparty (counterparties : List Counterparty) (c : Counterparty) :
    List Counterparty :=
  counterparties.map fun cp => if cp.id == c.id then c else cp

/-- The `addCounterparty` from ConterpatyStore.ts: spread plus the new record. -/
def addCounterparty (counterparties : List Counterparty) (c : Counterparty) :
    List Counterparty :=
  counterparties ++ [c]

/-- The `counterpartyReducer` from ConterpatyStore.ts. -/
def counterpartyReducer (state : StoreState) (action : Action) : StoreState :=
  match action with
  | .loadStart => { state with isLoading := true }
  | .loadSuccess payload =>
      { state with isLoading := false, counterparties := payload, loadedSuccess := true }
  | .loadError => { state with isLoading := false, loadedSuccess := false }
  | .openAddModal => { state with isModalOpen := true, editingCounterparty := none }
  | .openEditModal payload =>
      { state with isModalOpen := true, editingCounterparty := some payload }
  | .closeModal => { state with isModalOpen := false, editingCounterparty := none }
  | .deleteCounterparty payload =>
      { state with counterparties := state.counterparties.filter fun cp => cp.id != payload }
  | .updateCounterparty payload =>
      { state with counterparties := replaceCounterparty state.counterparties payload }
  | .createCounterparty payload =>
      { state with counterparties := addCounterparty state.counterparties payload }

end Store

namespace Ctx

/-- The `initialState` from CounterpartyContext.tsx. -/
def initialState : StoreState :=
  { counterparties := []
    isModalOpen := false
    isLoading := true
    loadedSuccess := true
    editingCounterparty := none }

/-- The `replaceCounterparty` from CounterpartyContext.tsx: `findIndex` by id,
overwrite that index when found, and return a copy. -/
def replaceCounterparty (counterparties : List Counterparty) (c : Counterparty) :
    List Counterparty :=
  match counterparties.findIdx? (fun cp => cp.id == c.id) with
  | some index => counterparties.set index c
  | none => counterparties

/-- The `addCounterparty` from CounterpartyContext.tsx: push, then return a copy. -/
def addCounterparty (counterparties : List Counterparty) (c : Counterparty) :
    List Counterparty :=
  counterparties ++ [c]

/-- The `reducer` defined inside CounterpartyContext.tsx. Its CLOSE_MODAL
branch only clears `isModalOpen` and leaves `editingCounterparty` as it is. -/
def reducer (state : StoreState) (action : Action) : StoreState :=
  match action with
  | .loadStart => { state with isLoading := true }
  | .loadSuccess payload =>
      { state with isLoading := false, counterparties := payload, loadedSuccess := true }
  | .loadError => { state with isLoading := false, loadedSuccess := false }
  | .openAddModal => { state with isModalOpen := true, editingCounterparty := none }
  | .openEditModal payload =>
      { state with isModalOpen := true, editingCounterparty := some payload }
  | .closeModal => { state with isModalOpen := false }
  | .deleteCounterparty payload =>
      { state with counterparties := state.counterparties.filter fun cp => cp.id != payload }
  | .updateCounterparty payload =>
      { state with counterparties := replaceCounterparty state.counterparties payload }
  | .createCounterparty payload =>
      { state with counterparties := addCounterparty state.counterparties payload }

end Ctx

/-- A state is reachable when some action sequence leads to it from the
initial state under the given reducer. -/
def Reachable (red : StoreState → Action → StoreState) (init : StoreState)
    (s : StoreState) : Prop :=
  ∃ actions : List Action, s = actions.foldl red init

/-! ## HTTP client and domain service (ApiService.ts, CounterpartyService.ts) -/

/-- HTTP methods of `ApiService`. -/
inductive Method where
  | GET
  | POST
  | PUT
  | PATCH
  | DELETE
deriving DecidableEq, Repr

/-- A `CounterpartyFormData` value sent as a request body (`id` optional). -/
structure FormPayload where
  id : Option String
  name : String
  inn : String
  address : String
  kpp : String
deriving DecidableEq, Repr

/-- A request issued by `ApiService.request`: method, full URL, and the
payload serialized into the body (when any). -/
structure Request where
  method : Method
  url : String
  body : Option FormPayload
deriving DecidableEq, Repr

/-- The JSON value of a response body as the service reads it. -/
inductive RespBody where
  | jlist (cs : List Counterparty)
  | jobj (c : Counterparty)
  | jval (s : String)
deriving DecidableEq, Repr

/-- Outcome of one `fetch` round trip: the promise either rejects with an
error, or resolves to a response with an `ok` flag and a JSON body. -/
inductive FetchOutcome where
  | rejected (err : String)
  | resolved (ok : Bool) (body : RespBody)
deriving DecidableEq, Repr

/-- The network abstracted as a function from requests to outcomes. -/
abbrev FetchOracle := Request → FetchOutcome

/-- An error propagated out of a service operation: either the underlying
fetch rejection rethrown as-is, or the `Error(message)` thrown on a non-ok
response. -/
inductive SvcError where
  | network (err : String)
  | http (msg : String)
deriving DecidableEq, Repr

/-- The message property of the propagated error. -/
def SvcError.msg : SvcError → String
  | .network e => e
  | .http m => m

/-- The configured base URL of `ApiService`. -/
def baseUrl : String := "http://localhost:3001"

/-- The `ApiService.get`: a GET request against `baseUrl + endpoint`. -/
def apiGet (endpoint : String) : Request :=
  ⟨.GET, baseUrl ++ endpoint, none⟩

/-- The `ApiService.post`: a POST request with the stringified payload. -/
def apiPost (endpoint : String) (data : FormPayload) : Request :=
  ⟨.POST, baseUrl ++ endpoint, some data⟩

/-- The `ApiService.put`: a PUT request with the stringified payload. -/
def apiPut (endpoint : String) (data : FormPayload) : Request :=
  ⟨.PUT, baseUrl ++ endpoint, some data⟩

/-- The `ApiService.delete`: a DELETE request. -/
def apiDelete (endpoint : String) : Request :=
  ⟨.DELETE, baseUrl ++ endpoint, none⟩

/-- The `CounterpartyService.getAllCounterparties`: GET the collection; throw
`Error` on a non-ok response; rethrow a fetch rejection; otherwise return
the parsed body. -/
def getAllCounterparties (fetchf : FetchOracle) : Except SvcError RespBody :=
  match fetchf (apiGet "/counterparties") with
  | .rejected e => .error (.network e)
  | .resolved ok body =>
      if ok then .ok body else .error (.http "Failed to fetch counterparties")

/-- The `CounterpartyService.getCounterpartyById`. -/
def getCounterpartyById (fetchf : FetchOracle) (id : String) : Except SvcError RespBody :=
  match fetchf (apiGet ("/counterparties/" ++ id)) with
  | .rejected e => .error (.network e)
  | .resolved ok body =>
      if ok then .ok body
      else .error (.http ("Failed to fetch counterparty with id " ++ id))

/-- The `CounterpartyService.createCounterparty`: POST the payload; on a non-ok
response throw; on success return the result of re-fetching the whole
collection (any error of the re-fetch is rethrown by the catch block). -/
def createCounterparty (fetchf : FetchOracle) (counterparty : FormPayload) :
    Except SvcError RespBody :=
  match fetchf (apiPost "/counterparties" counterparty) with
  | .rejected e => .error (.network e)
  | .resolved ok _ =>
      if ok then getAllCounterparties fetchf
      else .error (.http "Failed to create counterparty")

/-- The `CounterpartyService.updateCounterparty`: PUT by id, then re-fetch. -/
def updateCounterparty (fetchf : FetchOracle) (id : String) (counterparty : FormPayload) :
    Except SvcError RespBody :=
  match fetchf (apiPut ("/counterparties/" ++ id) counterparty) with
  | .rejected e => .error (.network e)
  | .resolved ok _ =>
      if ok then getAllCounterparties fetchf
      else .error (.http ("Failed to update counterparty with id " ++ id))

/-- The `CounterpartyService.deleteCounterparty`: DELETE by id, then re-fetch. -/
def deleteCounterparty (fetchf : FetchOracle) (id : String) : Except SvcError RespBody :=
  match fetchf (apiDelete ("/counterparties/" ++ id)) with
  | .rejected e => .error (.network e)
  | .resolved ok _ =>
      if ok then getAllCounterparties fetchf
      else .error (.http ("Failed to delete counterparty with id " ++ id))

/-- The payload POSTed by the create arm of `handleSave` in
CounterpartyContext.tsx: the form data with a freshly generated id
(`crypto.randomUUID`, modelled as the parameter `freshId`) assigned before
the request is issued. -/
def savePayload (data : FormPayload) (freshId : String) : FormPayload :=
  { data with id := some freshId }

/-- A fetch round trip fails when the promise rejects or the response is
not ok. -/
def FetchOutcome.fails : FetchOutcome → Prop
  | .rejected _ => True
  | .resolved ok _ => ok = false

/-- The `msg` contains `token` as a substring. -/
def mentions (msg token : String) : Prop :=
  ∃ a b, msg = a ++ token ++ b

/-! ## Timer lifecycle (utils timer helpers, the provider effect of
CounterpartyContext.tsx, ServerStatusBadge.tsx) -/

/-- The browser timer table: the id the next `setInterval` call returns, and
the ids of the intervals currently firing. Browser interval ids are
positive, which matters for the JS truthiness test in `cleanUpTimer`. -/
structure TimerWorld where
  nextId : Nat
  active : List Nat
deriving DecidableEq, Repr

/-- A timer world with no interval registered yet. -/
def TimerWorld.fresh : TimerWorld := { nextId := 1, active := [] }

/-- The `window.setInterval`: registers a new interval and returns its id. -/
def setIntervalW (w : TimerWorld) : Nat × TimerWorld :=
  (w.nextId, { nextId := w.nextId + 1, active := w.active ++ [w.nextId] })

/-- The `window.clearInterval`: deregisters the interval with the given id. -/
def clearIntervalW (id : Nat) (w : TimerWorld) : TimerWorld :=
  { w with active := w.active.filter fun i => i != id }

/-- The `cleanUpTimer(timerRef)` from the utils module: when `timerRef.current`
is truthy, clear that interval and null the ref. -/
def cleanUpTimer (ref : Option Nat) (w : TimerWorld) : Option Nat × TimerWorld :=
  match ref with
  | some tid => if tid != 0 then (none, clearIntervalW tid w) else (some tid, w)
  | none => (none, w)

/-- The `registrarTimer(timerRef, callback, interval)` from the utils module:
when `timerRef.current === null`, register the interval and store its id. -/
def registrarTimer (ref : Option Nat) (w : TimerWorld) : Option Nat × TimerWorld :=
  match ref with
  | none => let p := setIntervalW w; (some p.1, p.2)
  | some tid => (some tid, w)

/-- The mount effect of `CounterpartyProvider` (CounterpartyContext.tsx):
after the first load resolves, `window.setInterval` registers the refresh
interval; the returned id is discarded and the effect callback returns no
cleanup function. The first component is the cleanup React will run on
unmount (`none` here), the second is the timer world after mounting. -/
def providerMount (w : TimerWorld) : Option (TimerWorld → TimerWorld) × TimerWorld :=
  (none, (setIntervalW w).2)

/-- React teardown: run the cleanup returned by the effect, when there is
one. -/
def runUnmount (cleanup : Option (TimerWorld → TimerWorld)) (w : TimerWorld) :
    TimerWorld :=
  match cleanup with
  | some f => f w
  | none => w

/-- The mount effect of `ServerStatusBadge`: `registrarTimer` on a null ref,
returning a cleanup that runs `cleanUpTimer` on the ref. -/
def badgeMount (w : TimerWorld) : Option Nat × TimerWorld :=
  registrarTimer none w

/-- The unmount cleanup of `ServerStatusBadge`. -/
def badgeUnmount (ref : Option Nat) (w : TimerWorld) : TimerWorld :=
  (cleanUpTimer ref w).2

/-! ## Supporting lemmas -/

/-- On a `some` argument the truthiness guard of `validateInn` is redundant:
the empty string fails the length test of the regex anyway. -/
theorem validateInn_some (s : String) : validateInn (some s) = matchesDigits 11 s := by
  by_cases hs : s = ""
  · subst hs; simp [validateInn, matchesDigits]
  · simp [validateInn, hs]

/-- Same redundancy for `validateKpp`. -/
theorem validateKpp_some (s : String) : validateKpp (some s) = matchesDigits 9 s := by
  by_cases hs : s = ""
  · subst hs; simp [validateKpp, matchesDigits]
  · simp [validateKpp, hs]

/-- A string is nonempty exactly when its length is positive. -/
theorem String.length_pos_of_ne_empty {s : String} (h : s ≠ "") : 0 < s.length := by
  cases s with
  | mk l =>
    cases l with
    | nil => exact absurd rfl h
    | cons c cs => simp [String.length]

/-! ## Claim theorems -/

/-- C4: for every optional string, `validateInn` accepts iff the string is
present and consists of exactly 11 decimal digits, and `validateKpp` accepts
iff it is present and consists of exactly 9 decimal digits; every other
input (wrong length, non-digit, `undefined`, empty) is rejected. -/
theorem validateInn_validateKpp_characterization :
    (∀ v : Option String, validateInn v = true ↔
      ∃ s, v = some s ∧ s.length = 11 ∧ s.data.all Char.isDigit = true) ∧
    (∀ v : Option String, validateKpp v = true ↔
      ∃ s, v = some s ∧ s.length = 9 ∧ s.data.all Char.isDigit = true) := by
  constructor <;> intro v <;> cases v with
  | none => simp [validateInn, validateKpp]
  | some s =>
    simp only [validateInn_some, validateKpp_some, matchesDigits, Bool.and_eq_true,
      beq_iff_eq, Option.some.injEq]
    constructor
    · rintro ⟨h1, h2⟩; exact ⟨s, rfl, h1, h2⟩
    · rintro ⟨t, rfl, h1, h2⟩; exact ⟨h1, h2⟩

/-- C4 witness: `validateInn` accepts a concrete 11-digit string. -/
theorem validateInn_validateKpp_characterization_witness :
    validateInn (some "22345678901") = true :=
  (validateInn_validateKpp_characterization.1 (some "22345678901")).mpr
    ⟨"22345678901", rfl, by decide, by decide⟩

/-- C8: `validateName` and `validateAddress` accept exactly the present,
nonempty strings — whitespace-only strings are not trimmed and are
accepted — and reject the empty string and `undefined`. -/
theorem validateName_validateAddress_characterization :
    (∀ v : Option String, validateName v = true ↔ ∃ s, v = some s ∧ s ≠ "") ∧
    (∀ v : Option String, validateAddress v = true ↔ ∃ s, v = some s ∧ s ≠ "") ∧
    validateName (some "   ") = true ∧ validateAddress (some "   ") = true ∧
    validateName (some "") = false ∧ validateAddress (some "") = false ∧
    validateName none = false ∧ validateAddress none = false := by
  refine ⟨?_, ?_, by decide, by decide, by decide, by decide, rfl, rfl⟩ <;>
    intro v <;> cases v with
    | none => simp [validateName, validateAddress]
    | some s =>
      by_cases hs : s = ""
      · subst hs; simp [validateName, validateAddress]
      · simp [validateName, validateAddress, hs, String.length_pos_of_ne_empty hs]

/-- C8 witness: a whitespace-only name is accepted. -/
theorem validateName_validateAddress_characterization_witness :
    validateName (some " ") = true :=
  (validateName_validateAddress_characterization.1 (some " ")).mpr
    ⟨" ", rfl, by decide⟩

/-- On a key that `Object.entries` enumerates, the entry check of `validate`
is exactly the field check of `validateForm`. -/
theorem entryError_present (handler : Option String → Bool) (msg : String) (f : JsField)
    (hf : f.present = true) :
    entryError handler msg f = if handler f.val then none else some msg := by
  cases f with
  | absent => simp [JsField.present] at hf
  | undef => rfl
  | str s => rfl

/-- A form record whose `inn` key is missing while the other fields hold
valid values. -/
def recordNoInnKey : FormRecord :=
  { id := .absent
    name := .str "x"
    inn := .absent
    address := .str "a"
    kpp := .str "123456789" }

/-- C1 counterexample: on a record whose `inn` key is absent,
`validate` of ModalFormValidator.ts returns the empty error mapping even
though the `inn` field fails its rule (`validateInn undefined` is false) —
so the key set is not the set of failing fields, and the aggregate validity
check is false while the mapping is empty. -/
theorem validate_absent_key_counterexample :
    validate recordNoInnKey = FormErrors.empty ∧
    validateInn recordNoInnKey.inn.val = false ∧
    isValidConteParty recordNoInnKey = false ∧
    (validateForm recordNoInnKey).inn = some innErrorMsg :=
  ⟨rfl, rfl, rfl, rfl⟩

/-- C1 amended: the part_005 revision (`validateForm`) satisfies the claim in
full — its key set is exactly the set of failing fields, absent/undefined
fields included, each with its fixed message, and `isValidConteParty` is
true iff that mapping is empty. ModalFormValidator's `validate` only
enumerates keys present in the record, and coincides with `validateForm`
(hence satisfies the claim) whenever all four field keys are present. -/
theorem validate_validateForm_characterization : ∀ r : FormRecord,
    (isValidConteParty r = true ↔ (validateForm r).isEmpty = true) ∧
    ((validateForm r).name = if validateName r.name.val then none else some nameErrorMsg) ∧
    ((validateForm r).inn = if validateInn r.inn.val then none else some innErrorMsg) ∧
    ((validateForm r).address =
      if validateAddress r.address.val then none else some addressErrorMsg) ∧
    ((validateForm r).kpp = if validateKpp r.kpp.val then none else some kppErrorMsg) ∧
    (r.name.present = true → r.inn.present = true → r.address.present = true →
      r.kpp.present = true → validate r = validateForm r) := by
  intro r
  refine ⟨?_, rfl, rfl, rfl, rfl, ?_⟩
  · by_cases h1 : validateInn r.inn.val <;>
      by_cases h2 : validateKpp r.kpp.val <;>
      by_cases h3 : validateAddress r.address.val <;>
      by_cases h4 : validateName r.name.val <;>
      simp [isValidConteParty, validateForm, FormErrors.isEmpty, h1, h2, h3, h4]
  · intro hn hi ha hk
    simp [validate, validateForm, entryError_present _ _ _ hn, entryError_present _ _ _ hi,
      entryError_present _ _ _ ha, entryError_present _ _ _ hk]

/-- A form record with all five keys present and valid values. -/
def recordAllKeys : FormRecord :=
  { id := .str "1"
    name := .str "x"
    inn := .str "22345678901"
    address := .str "a"
    kpp := .str "123456789" }

/-- C1 witness: on a record with all field keys present, the presence
hypotheses discharge and the two validators produce the same mapping. -/
theorem validate_validateForm_characterization_witness :
    validate recordAllKeys = validateForm recordAllKeys :=
  (validate_validateForm_characterization recordAllKeys).2.2.2.2.2 rfl rfl rfl rfl

/-- A sample counterparty record. -/
def sampleCp : Counterparty :=
  { id := "1", name := "n", inn := "22345678901", address := "a", kpp := "123456789" }

/-- The modal/editing invariant of the store: an editing record is only
present while the modal is open. -/
def EditInv (s : StoreState) : Prop :=
  s.editingCounterparty.isSome = true → s.isModalOpen = true

/-- Every transition of `counterpartyReducer` preserves the modal/editing
invariant. -/
theorem editInv_step (s : StoreState) (a : Action) (h : EditInv s) :
    EditInv (Store.counterpartyReducer s a) := by
  cases a <;> simp [Store.counterpartyReducer, EditInv] at h ⊢ <;> try exact h

/-- The modal/editing invariant survives any action sequence. -/
theorem editInv_foldl (actions : List Action) :
    ∀ s : StoreState, EditInv s →
      EditInv (actions.foldl Store.counterpartyReducer s) := by
  induction actions with
  | nil => intro s h; exact h
  | cons a as ih => intro s h; exact ih _ (editInv_step s a h)

/-- The state the reducer of CounterpartyContext.tsx reaches by opening the
edit modal on `sampleCp` and then closing the modal. -/
def ctxClosedEditingState : StoreState :=
  List.foldl Ctx.reducer Ctx.initialState [Action.openEditModal sampleCp, Action.closeModal]

/-- C2 counterexample: under the reducer of CounterpartyContext.tsx, the
state reached by opening the edit modal and closing it again has the modal
closed but still carries the editing record — CLOSE_MODAL does not clear
`editingCounterparty` there. -/
theorem ctx_closeModal_keeps_editing_counterexample :
    Reachable Ctx.reducer Ctx.initialState ctxClosedEditingState ∧
    ctxClosedEditingState.isModalOpen = false ∧
    ctxClosedEditingState.editingCounterparty = some sampleCp :=
  ⟨⟨[Action.openEditModal sampleCp, Action.closeModal], rfl⟩, rfl, rfl⟩

/-- C2 amended: for `counterpartyReducer` of ConterpatyStore.ts the claimed
invariant holds — every state reachable from the initial state carries an
editing record only while the modal is open, and CLOSE_MODAL always clears
the editing record. (The reducer inside CounterpartyContext.tsx violates
this: its CLOSE_MODAL branch leaves `editingCounterparty` untouched.) -/
theorem counterpartyReducer_editing_invariant :
    (∀ s : StoreState,
      Reachable Store.counterpartyReducer Store.counterpartyInitialState s →
      s.editingCounterparty.isSome = true → s.isModalOpen = true) ∧
    (∀ s : StoreState,
      (Store.counterpartyReducer s .closeModal).editingCounterparty = none) := by
  constructor
  · rintro s ⟨actions, rfl⟩
    refine editInv_foldl actions _ ?_
    intro h
    simp [Store.counterpartyInitialState] at h
  · intro s; rfl

/-- C2 witness: after opening the edit modal from the initial state, the
editing record is present and the invariant yields an open modal. -/
theorem counterpartyReducer_editing_invariant_witness :
    (List.foldl Store.counterpartyReducer Store.counterpartyInitialState
      [Action.openEditModal sampleCp]).isModalOpen = true :=
  counterpartyReducer_editing_invariant.1 _ ⟨[Action.openEditModal sampleCp], rfl⟩ rfl

/-- C7: a failed list load (LOAD_ERROR) sets `loadedSuccess` to false and
`isLoading` to false, and leaves the record set, the modal flag and the
editing record unchanged — in both reducer revisions. -/
theorem loadError_frame :
    ∀ s : StoreState,
      ((Store.counterpartyReducer s .loadError).loadedSuccess = false ∧
        (Store.counterpartyReducer s .loadError).isLoading = false ∧
        (Store.counterpartyReducer s .loadError).counterparties = s.counterparties ∧
        (Store.counterpartyReducer s .loadError).isModalOpen = s.isModalOpen ∧
        (Store.counterpartyReducer s .loadError).editingCounterparty =
          s.editingCounterparty) ∧
      ((Ctx.reducer s .loadError).loadedSuccess = false ∧
        (Ctx.reducer s .loadError).isLoading = false ∧
        (Ctx.reducer s .loadError).counterparties = s.counterparties ∧
        (Ctx.reducer s .loadError).isModalOpen = s.isModalOpen ∧
        (Ctx.reducer s .loadError).editingCounterparty = s.editingCounterparty) :=
  fun _ => ⟨⟨rfl, rfl, rfl, rfl, rfl⟩, rfl, rfl, rfl, rfl, rfl⟩

/-- C9: OPEN_ADD_MODAL is idempotent in both reducer revisions, and the
resulting state has the modal open in create mode (no editing record). -/
theorem openAddModal_idempotent :
    ∀ s : StoreState,
      Store.counterpartyReducer (Store.counterpartyReducer s .openAddModal) .openAddModal =
        Store.counterpartyReducer s .openAddModal ∧
      Ctx.reducer (Ctx.reducer s .openAddModal) .openAddModal =
        Ctx.reducer s .openAddModal ∧
      (Store.counterpartyReducer s .openAddModal).isModalOpen = true ∧
      (Store.counterpartyReducer s .openAddModal).editingCounterparty = none ∧
      (Ctx.reducer s .openAddModal).isModalOpen = true ∧
      (Ctx.reducer s .openAddModal).editingCounterparty = none :=
  fun _ => ⟨rfl, rfl, rfl, rfl, rfl, rfl⟩

/-- Mapping a function that fixes every element of a list is the identity. -/
theorem map_id_on {l : List Counterparty} {f : Counterparty → Counterparty}
    (h : ∀ x ∈ l, f x = x) : l.map f = l := by
  induction l with
  | nil => rfl
  | cons a t ih =>
    rw [List.map_cons, h a (by simp), ih (fun x hx => h x (by simp [hx]))]

/-- When the record ids are pairwise distinct, replace-all-matches
(ConterpatyStore.ts) and replace-first-match (CounterpartyContext.tsx)
agree. -/
theorem replaceCounterparty_agree (c : Counterparty) :
    ∀ cs : List Counterparty, (cs.map Counterparty.id).Nodup →
      Store.replaceCounterparty cs c = Ctx.replaceCounterparty cs c := by
  intro cs
  induction cs with
  | nil => intro _; rfl
  | cons hd tl ih =>
    intro hnd
    rw [List.map_cons, List.nodup_cons] at hnd
    obtain ⟨hni, hnd'⟩ := hnd
    unfold Store.replaceCounterparty Ctx.replaceCounterparty
    by_cases hid : hd.id = c.id
    · have htl : tl.map (fun cp => if cp.id = c.id then c else cp) = tl := by
        refine map_id_on ?_
        intro x hx
        have hx2 : x.id ≠ c.id := by
          intro hxe
          exact hni (hid ▸ hxe ▸ List.mem_map_of_mem Counterparty.id hx)
        simp [hx2]
      simp [List.findIdx?_cons, hid, htl]
    · have hstep := ih hnd'
      unfold Store.replaceCounterparty Ctx.replaceCounterparty at hstep
      simp only [beq_iff_eq] at hstep
      simp only [List.findIdx?_cons, List.findIdx?_succ, beq_iff_eq, hid, if_false,
        List.map_cons]
      cases hfi : tl.findIdx? (fun cp => cp.id == c.id) with
      | none =>
        rw [hfi] at hstep
        simpa using hstep
      | some i =>
        rw [hfi] at hstep
        simpa [List.set] using hstep

/-- A state whose modal is open in edit mode on `sampleCp`. -/
def stateWithEditing : StoreState :=
  { counterparties := []
    isModalOpen := true
    isLoading := false
    loadedSuccess := true
    editingCounterparty := some sampleCp }

/-- C10 counterexample: on a state carrying an editing record, CLOSE_MODAL
produces different states under the two reducer revisions (the Store one
clears `editingCounterparty`, the Context one keeps it). -/
theorem reducers_differ_counterexample :
    Store.counterpartyReducer stateWithEditing .closeModal ≠
      Ctx.reducer stateWithEditing .closeModal := by
  intro h
  have h2 := congrArg StoreState.editingCounterparty h
  simp [Store.counterpartyReducer, Ctx.reducer, stateWithEditing] at h2

/-- C10 amended: the two reducers agree on every action other than
CLOSE_MODAL and UPDATE_COUNTERPARTY; on CLOSE_MODAL they agree exactly on
the states that carry no editing record; on UPDATE_COUNTERPARTY they agree
on every state whose record list has pairwise-distinct ids (replace-all
versus replace-first can differ when ids repeat). -/
theorem reducers_agree_characterization :
    (∀ (s : StoreState) (a : Action), (∀ c, a ≠ Action.updateCounterparty c) →
      a ≠ Action.closeModal → Store.counterpartyReducer s a = Ctx.reducer s a) ∧
    (∀ s : StoreState,
      Store.counterpartyReducer s .closeModal = Ctx.reducer s .closeModal ↔
        s.editingCounterparty = none) ∧
    (∀ (s : StoreState) (c : Counterparty),
      (s.counterparties.map Counterparty.id).Nodup →
      Store.counterpartyReducer s (.updateCounterparty c) =
        Ctx.reducer s (.updateCounterparty c)) := by
  refine ⟨?_, ?_, ?_⟩
  · intro s a hu hc
    cases a
    case updateCounterparty c => exact absurd rfl (hu c)
    case closeModal => exact absurd rfl hc
    all_goals rfl
  · intro s
    constructor
    · intro h
      have h2 := congrArg StoreState.editingCounterparty h
      simpa [Store.counterpartyReducer, Ctx.reducer] using h2.symm
    · intro h
      cases s with
      | mk cs m l ls e =>
        simp only at h
        subst h
        rfl
  · intro s c h
    simp [Store.counterpartyReducer, Ctx.reducer, replaceCounterparty_agree c s.counterparties h]

/-- C10 witness: the two reducers agree on LOAD_START from the initial
state, and on UPDATE_COUNTERPARTY over a duplicate-free record list. -/
theorem reducers_agree_characterization_witness :
    Store.counterpartyReducer Store.counterpartyInitialState .loadStart =
      Ctx.reducer Store.counterpartyInitialState .loadStart ∧
    Store.counterpartyReducer stateWithEditing (.updateCounterparty sampleCp) =
      Ctx.reducer stateWithEditing (.updateCounterparty sampleCp) :=
  ⟨reducers_agree_characterization.1 _ _ (by intro c h; cases h) (by intro h; cases h),
    reducers_agree_characterization.2.2 stateWithEditing sampleCp (by simp [stateWithEditing])⟩

/-- Whether a service operation propagates an error. -/
def raises : Except SvcError RespBody → Bool
  | .error _ => true
  | .ok _ => false

/-- A witness-style introduction rule for substring containment. -/
theorem mentions_of_split (m a t b : String) (h : m = a ++ t ++ b) : mentions m t :=
  ⟨a, b, h⟩

/-- The suffix of a concatenation is a substring of it. -/
theorem mentions_append (pre t : String) : mentions (pre ++ t) t :=
  ⟨pre, "", (String.append_empty (pre ++ t)).symm⟩

/-- The `getAllCounterparties` raises exactly when its GET round trip fails. -/
theorem raises_getAll (f : FetchOracle) :
    raises (getAllCounterparties f) = true ↔ (f (apiGet "/counterparties")).fails := by
  unfold getAllCounterparties
  cases h : f (apiGet "/counterparties") with
  | rejected e => simp [raises, FetchOutcome.fails]
  | resolved ok b => cases ok <;> simp [raises, FetchOutcome.fails]

/-- The `getCounterpartyById` raises exactly when its GET round trip fails. -/
theorem raises_getById (f : FetchOracle) (id : String) :
    raises (getCounterpartyById f id) = true ↔
      (f (apiGet ("/counterparties/" ++ id))).fails := by
  unfold getCounterpartyById
  cases h : f (apiGet ("/counterparties/" ++ id)) with
  | rejected e => simp [raises, FetchOutcome.fails]
  | resolved ok b => cases ok <;> simp [raises, FetchOutcome.fails]

/-- The `createCounterparty` raises exactly when the POST or the re-fetch
fails. -/
theorem raises_create (f : FetchOracle) (cp : FormPayload) :
    raises (createCounterparty f cp) = true ↔
      ((f (apiPost "/counterparties" cp)).fails ∨
        (f (apiGet "/counterparties")).fails) := by
  unfold createCounterparty
  cases h : f (apiPost "/counterparties" cp) with
  | rejected e => simp [raises, FetchOutcome.fails]
  | resolved ok b =>
    cases ok
    · simp [raises, FetchOutcome.fails]
    · simp [FetchOutcome.fails, raises_getAll f]

/-- The `updateCounterparty` raises exactly when the PUT or the re-fetch
fails. -/
theorem raises_update (f : FetchOracle) (id : String) (cp : FormPayload) :
    raises (updateCounterparty f id cp) = true ↔
      ((f (apiPut ("/counterparties/" ++ id) cp)).fails ∨
        (f (apiGet "/counterparties")).fails) := by
  unfold updateCounterparty
  cases h : f (apiPut ("/counterparties/" ++ id) cp) with
  | rejected e => simp [raises, FetchOutcome.fails]
  | resolved ok b =>
    cases ok
    · simp [raises, FetchOutcome.fails]
    · simp [FetchOutcome.fails, raises_getAll f]

/-- The `deleteCounterparty` raises exactly when the DELETE or the re-fetch
fails. -/
theorem raises_delete (f : FetchOracle) (id : String) :
    raises (deleteCounterparty f id) = true ↔
      ((f (apiDelete ("/counterparties/" ++ id))).fails ∨
        (f (apiGet "/counterparties")).fails) := by
  unfold deleteCounterparty
  cases h : f (apiDelete ("/counterparties/" ++ id)) with
  | rejected e => simp [raises, FetchOutcome.fails]
  | resolved ok b =>
    cases ok
    · simp [raises, FetchOutcome.fails]
    · simp [FetchOutcome.fails, raises_getAll f]

/-- C5: when the HTTP write succeeds, each mutating service operation
returns exactly the result of re-fetching the whole collection — whatever
body the write response carried — and the create arm of `handleSave` POSTs
a payload whose id is the freshly generated id assigned before the
request. -/
theorem mutations_return_refetched_list :
    (∀ (f : FetchOracle) (cp : FormPayload) (b : RespBody),
      f (apiPost "/counterparties" cp) = .resolved true b →
      createCounterparty f cp = getAllCounterparties f) ∧
    (∀ (f : FetchOracle) (id : String) (cp : FormPayload) (b : RespBody),
      f (apiPut ("/counterparties/" ++ id) cp) = .resolved true b →
      updateCounterparty f id cp = getAllCounterparties f) ∧
    (∀ (f : FetchOracle) (id : String) (b : RespBody),
      f (apiDelete ("/counterparties/" ++ id)) = .resolved true b →
      deleteCounterparty f id = getAllCounterparties f) ∧
    (∀ (data : FormPayload) (freshId : String),
      (apiPost "/counterparties" (savePayload data freshId)).body =
        some (savePayload data freshId) ∧
      (savePayload data freshId).id = some freshId) := by
  refine ⟨?_, ?_, ?_, fun _ _ => ⟨rfl, rfl⟩⟩
  · intro f cp b h; simp [createCounterparty, h]
  · intro f id cp b h; simp [updateCounterparty, h]
  · intro f id b h; simp [deleteCounterparty, h]

/-- An oracle whose POST round trips succeed with an arbitrary response
body and whose other round trips return the sample list. -/
def postOkOracle : FetchOracle := fun req =>
  match req.method with
  | .POST => .resolved true (.jval "write response body, not to be returned")
  | _ => .resolved true (.jlist [sampleCp])

/-- C5 witness: a concrete create over `postOkOracle` returns the re-fetched
list. -/
theorem mutations_return_refetched_list_witness :
    createCounterparty postOkOracle ⟨none, "n", "22345678901", "a", "123456789"⟩ =
      getAllCounterparties postOkOracle :=
  mutations_return_refetched_list.1 postOkOracle _
    (.jval "write response body, not to be returned") rfl

/-- An oracle on which every fetch rejects with the message `boom`. -/
def boomOracle : FetchOracle := fun _ => .rejected "boom"

/-- C6 counterexample: when the underlying fetch rejects, the service
rethrows the rejection unchanged, so the raised error carries neither the
operation name nor anything else about the operation — here the propagated
message is just `boom`. -/
theorem rethrown_rejection_counterexample :
    getAllCounterparties boomOracle = .error (.network "boom") ∧
    (SvcError.network "boom").msg = "boom" ∧
    ¬ mentions "boom" "fetch" ∧
    ¬ mentions "boom" "counterparties" := by
  refine ⟨rfl, rfl, ?_, ?_⟩
  · rintro ⟨a, b, h⟩
    have h2 := congrArg String.length h
    rw [String.length_append, String.length_append,
      show "boom".length = 4 from rfl, show "fetch".length = 5 from rfl] at h2
    omega
  · rintro ⟨a, b, h⟩
    have h2 := congrArg String.length h
    rw [String.length_append, String.length_append,
      show "boom".length = 4 from rfl, show "counterparties".length = 14 from rfl] at h2
    omega

/-- C6 amended: every service operation raises exactly when one of its HTTP
round trips fails (the response is not ok or the fetch rejects); an ok
response returns normally with the parsed body; a non-ok response raises the
fixed `Error` message, which carries the operation name and, when
applicable, the record id; a fetch rejection, however, is rethrown
unchanged. -/
theorem service_error_characterization :
    (∀ f : FetchOracle,
      raises (getAllCounterparties f) = true ↔ (f (apiGet "/counterparties")).fails) ∧
    (∀ (f : FetchOracle) (id : String),
      raises (getCounterpartyById f id) = true ↔
        (f (apiGet ("/counterparties/" ++ id))).fails) ∧
    (∀ (f : FetchOracle) (cp : FormPayload),
      raises (createCounterparty f cp) = true ↔
        (f (apiPost "/counterparties" cp)).fails ∨
          (f (apiGet "/counterparties")).fails) ∧
    (∀ (f : FetchOracle) (id : String) (cp : FormPayload),
      raises (updateCounterparty f id cp) = true ↔
        (f (apiPut ("/counterparties/" ++ id) cp)).fails ∨
          (f (apiGet "/counterparties")).fails) ∧
    (∀ (f : FetchOracle) (id : String),
      raises (deleteCounterparty f id) = true ↔
        (f (apiDelete ("/counterparties/" ++ id))).fails ∨
          (f (apiGet "/counterparties")).fails) ∧
    (∀ (f : FetchOracle) (b : RespBody),
      f (apiGet "/counterparties") = .resolved true b →
      getAllCounterparties f = .ok b) ∧
    (∀ (f : FetchOracle) (id : String) (b : RespBody),
      f (apiGet ("/counterparties/" ++ id)) = .resolved true b →
      getCounterpartyById f id = .ok b) ∧
    (∀ (f : FetchOracle) (b : RespBody),
      f (apiGet "/counterparties") = .resolved false b →
      getAllCounterparties f = .error (.http "Failed to fetch counterparties")) ∧
    (∀ (f : FetchOracle) (id : String) (b : RespBody),
      f (apiGet ("/counterparties/" ++ id)) = .resolved false b →
      getCounterpartyById f id =
        .error (.http ("Failed to fetch counterparty with id " ++ id))) ∧
    (∀ (f : FetchOracle) (cp : FormPayload) (b : RespBody),
      f (apiPost "/counterparties" cp) = .resolved false b →
      createCounterparty f cp = .error (.http "Failed to create counterparty")) ∧
    (∀ (f : FetchOracle) (id : String) (cp : FormPayload) (b : RespBody),
      f (apiPut ("/counterparties/" ++ id) cp) = .resolved false b →
      updateCounterparty f id cp =
        .error (.http ("Failed to update counterparty with id " ++ id))) ∧
    (∀ (f : FetchOracle) (id : String) (b : RespBody),
      f (apiDelete ("/counterparties/" ++ id)) = .resolved false b →
      deleteCounterparty f id =
        .error (.http ("Failed to delete counterparty with id " ++ id))) ∧
    mentions "Failed to fetch counterparties" "fetch" ∧
    mentions "Failed to create counterparty" "create" ∧
    (∀ id : String, mentions ("Failed to fetch counterparty with id " ++ id) id) ∧
    (∀ id : String,
      mentions ("Failed to update counterparty with id " ++ id) "update" ∧
      mentions ("Failed to update counterparty with id " ++ id) id) ∧
    (∀ id : String,
      mentions ("Failed to delete counterparty with id " ++ id) "delete" ∧
      mentions ("Failed to delete counterparty with id " ++ id) id) ∧
    (∀ (f : FetchOracle) (e : String),
      f (apiGet "/counterparties") = .rejected e →
      getAllCounterparties f = .error (.network e)) := by
  refine ⟨raises_getAll, raises_getById, raises_create, raises_update, raises_delete,
    ?_, ?_, ?_, ?_, ?_, ?_, ?_, ?_, ?_, ?_, ?_, ?_, ?_⟩
  · intro f b h; simp [getAllCounterparties, h]
  · intro f id b h; simp [getCounterpartyById, h]
  · intro f b h; simp [getAllCounterparties, h]
  · intro f id b h; simp [getCounterpartyById, h]
  · intro f cp b h; simp [createCounterparty, h]
  · intro f id cp b h; simp [updateCounterparty, h]
  · intro f id b h; simp [deleteCounterparty, h]
  · exact mentions_of_split _ "Failed to " "fetch" " counterparties" (by decide)
  · exact mentions_of_split _ "Failed to " "create" " counterparty" (by decide)
  · intro id; exact mentions_append "Failed to fetch counterparty with id " id
  · intro id
    constructor
    · refine mentions_of_split _ "Failed to " "update" (" counterparty with id " ++ id) ?_
      rw [← String.append_assoc]
      exact congrArg (· ++ id) (by decide)
    · exact mentions_append "Failed to update counterparty with id " id
  · intro id
    constructor
    · refine mentions_of_split _ "Failed to " "delete" (" counterparty with id " ++ id) ?_
      rw [← String.append_assoc]
      exact congrArg (· ++ id) (by decide)
    · exact mentions_append "Failed to delete counterparty with id " id
  · intro f e h; simp [getAllCounterparties, h]

/-- C6 witness: over an oracle whose GET of the collection returns a non-ok
response, `getAllCounterparties` raises. -/
theorem service_error_characterization_witness :
    raises (getAllCounterparties (fun _ => .resolved false (.jval "srv"))) = true :=
  (service_error_characterization.1 (fun _ => .resolved false (.jval "srv"))).mpr rfl

/-- C3 evidence: mounting `CounterpartyProvider` registers exactly one
refresh interval, but the effect returns no cleanup and discards the
interval id, so after React unmounts the provider the interval is still
active and its ticks keep firing; `ServerStatusBadge`, by contrast, clears
its interval through `cleanUpTimer` on unmount. -/
theorem provider_timer_not_cleared :
    (∀ w : TimerWorld, (providerMount w).1 = none ∧
      (providerMount w).2.active = w.active ++ [w.nextId]) ∧
    (runUnmount (providerMount TimerWorld.fresh).1
      (providerMount TimerWorld.fresh).2).active = [1] ∧
    (badgeUnmount (badgeMount TimerWorld.fresh).1 (badgeMount TimerWorld.fresh).2).active
      = [] :=
  ⟨fun _ => ⟨rfl, rfl⟩, rfl, rfl⟩

end Homework
